import Mathlib

/-!
Shallow embedding of `src/app.py` (a Streamlit trial-data-entry form) and
proofs about its behaviour.

The program is a single script re-run on every render cycle.  We embed:
  * `get_coordinates` (app.py lines 18-27): geocoding with a `try/except`
    that catches `GeocoderTimedOut`;
  * `fetch_weather_data` (app.py lines 30-60): shaping of the provider's
    hourly response into a data frame whose `date` column is
    `pd.date_range(start, end, freq=interval, inclusive="left")`;
  * the session state (lines 63-66): only `submitted` and `weather_data`
    are initialized; `lat`/`lon` are set only by a successful geocode, so
    they can be *unset* (modelled as `Option`);
  * the submit handler (lines 85-107) as a step function on the session
    state, with flags recording which external calls were made;
  * the summary display (lines 110-123), which can raise an
    `AttributeError` when `st.session_state.lat` was never set;
  * the reset button (lines 126-127).

External collaborators are modelled through the interfaces of the spec:
the geocoding provider is a function from the query string to an outcome
(first match / empty result / timeout), and the weather provider is a
function from coordinates to its raw hourly response (window start,
window end, step interval, parallel value arrays).
-/

/-- Calendar date as produced by `st.date_input`.  The widget always
returns an actual `datetime.date` value (its default is today, and the
source never passes `value=None`), so the field type is total, not
optional. -/
structure PDate where
  year : Nat
  month : Nat
  day : Nat
deriving DecidableEq, Repr

/-- Python truthiness of a string: `not s` is true exactly when `s` is
empty.  Used by the validation chain at app.py lines 87-94. -/
def strFalsy (s : String) : Bool :=
  s.isEmpty

/-- Python truthiness of a `datetime.date`: the class defines neither
`__bool__` nor `__len__`, so every date object is truthy and `not d` is
always `False`. -/
def dateFalsy (_ : PDate) : Bool :=
  false

/-- Outcome of one call to the geocoding provider, per the spec's service
boundary: response is the first matching latitude/longitude pair, an
empty result, or a timeout (raised as `GeocoderTimedOut`). -/
inductive GeoOutcome where
  | found (lat lon : Rat)
  | noMatch
  | timedOut
deriving DecidableEq, Repr

/-- `get_coordinates` (app.py lines 18-27).  The provider `geo` stands for
`geolocator.geocode`; a `found` result corresponds to a truthy `location`,
`noMatch` to `None`, and `timedOut` to the `GeocoderTimedOut` exception,
which the `except` clause turns into `(None, None)`.  The function is
total over every provider outcome of the service boundary: no exception
escapes it. -/
def get_coordinates (geo : String → GeoOutcome) (postcode : String) :
    Option Rat × Option Rat :=
  match geo postcode with
  | .found lat lon => (some lat, some lon)
  | .noMatch => (none, none)
  | .timedOut => (none, none)

/-- Raw hourly block of the weather provider's response: window start
`Time()`, window end `TimeEnd()` (both seconds since epoch), step
`Interval()` (seconds), and the three per-field value arrays requested at
app.py line 35. -/
structure HourlyResponse where
  time : Nat
  timeEnd : Nat
  interval : Nat
  temperature_2m : List Rat
  cloud_cover : List Rat
  precipitation : List Rat
deriving DecidableEq, Repr

/-- `pd.date_range(start=s, end=e, freq=i, inclusive="left")` over epoch
seconds: the timestamps `s + k*i` that are `< e` (the generated range
stops at `e`, and `inclusive="left"` drops the right endpoint).  For
`e ≤ s` the range is empty; the count is `⌈(e − s) / i⌉`. -/
def dateRangeLeft (start stop interval : Nat) : List Nat :=
  (List.range ((stop - start + interval - 1) / interval)).map
    (fun k => start + k * interval)

/-- Result of `fetch_weather_data`: the `pd.DataFrame` built at app.py
lines 48-60, with the `date` column and the three value columns. -/
structure WeatherFrame where
  dates : List Nat
  temperature_2m : List Rat
  cloud_cover : List Rat
  precipitation : List Rat
deriving DecidableEq, Repr

/-- `fetch_weather_data` (app.py lines 30-60).  `wxp` models the
provider's `weather_api` call for the fixed parameter set; the response's
hourly block is shaped into a frame whose `date` column is the
left-inclusive date range over the provider's window. -/
def fetch_weather_data (wxp : Rat → Rat → HourlyResponse)
    (latitude longitude : Rat) : WeatherFrame :=
  let hourly := wxp latitude longitude
  { dates := dateRangeLeft hourly.time hourly.timeEnd hourly.interval
    temperature_2m := hourly.temperature_2m
    cloud_cover := hourly.cloud_cover
    precipitation := hourly.precipitation }

/-- `st.session_state`.  Lines 63-66 initialize only `submitted` and
`weather_data`; `lat`/`lon` first exist when line 102 assigns them, so
`none` here means the attribute is *unset* and reading it raises
`AttributeError`. -/
structure SessionState where
  submitted : Bool
  lat : Option Rat
  lon : Option Rat
  weather_data : Option WeatherFrame
deriving DecidableEq, Repr

/-- Session state at session start: `submitted = False`,
`weather_data = None`, and `lat`/`lon` not present. -/
def initState : SessionState :=
  { submitted := false, lat := none, lon := none, weather_data := none }

/-- Current values of the input widgets at the moment the script runs
(app.py lines 72-82).  `add_weather` is the radio value, one of
`"No"`/`"Yes"`. -/
structure FormInputs where
  trial_name : String
  trial_start_date : PDate
  trial_end_date : PDate
  postcode : String
  add_weather : String
deriving DecidableEq, Repr

/-- The four validation failures of the `if/elif` chain at app.py
lines 87-94, in source order. -/
inductive ValidationError where
  | missingName
  | missingStartDate
  | missingEndDate
  | missingPostcode
deriving DecidableEq, Repr

/-- The sequential early-exit validation of the submit handler: the first
falsy field in the order name, start date, end date, postcode, or `none`
when all four are truthy. -/
def validate (f : FormInputs) : Option ValidationError :=
  if strFalsy f.trial_name then some .missingName
  else if dateFalsy f.trial_start_date then some .missingStartDate
  else if dateFalsy f.trial_end_date then some .missingEndDate
  else if strFalsy f.postcode then some .missingPostcode
  else none

/-- Observable result of one press of "Submit Trial Info": the session
state after the handler, the error messages shown, and whether the
geocoding and weather network calls were made. -/
structure SubmitResult where
  state : SessionState
  errors : List ValidationError
  geocodeCalled : Bool
  weatherCalled : Bool
deriving DecidableEq, Repr

/-- The submit handler (app.py lines 85-107).  A failing validation shows
exactly one error and touches nothing.  Otherwise `submitted` is set,
geocoding runs; if both coordinates resolved they are stored and, when
the radio is "Yes", the weather fetch runs and its frame is stored.  A
geocoding failure is silent: the state keeps `lat`/`lon` as they were. -/
def submitTrialInfo (geo : String → GeoOutcome)
    (wxp : Rat → Rat → HourlyResponse) (f : FormInputs) (s : SessionState) :
    SubmitResult :=
  match validate f with
  | some e =>
    { state := s, errors := [e], geocodeCalled := false, weatherCalled := false }
  | none =>
    let s1 := { s with submitted := true }
    match get_coordinates geo f.postcode with
    | (some lat, some lon) =>
      let s2 := { s1 with lat := some lat, lon := some lon }
      if f.add_weather = "Yes" then
        { state := { s2 with weather_data := some (fetch_weather_data wxp lat lon) }
          errors := []
          geocodeCalled := true
          weatherCalled := true }
      else
        { state := s2, errors := [], geocodeCalled := true, weatherCalled := false }
    | _ =>
      { state := s1, errors := [], geocodeCalled := true, weatherCalled := false }

/-- What the summary block (app.py lines 110-123) shows when it renders
successfully. -/
structure SummaryOutput where
  bannerName : String
  startDateShown : PDate
  endDateShown : PDate
  latShown : Rat
  lonShown : Rat
  weatherSection : Option WeatherFrame
deriving DecidableEq, Repr

/-- The post-submit display (app.py lines 110-123).  It runs in the same
script pass, reading the *current widget values* `f` and the session
state.  Line 114 reads `st.session_state.lat` and `st.session_state.lon`
unconditionally: if either attribute was never set the script raises
`AttributeError` and the render fails (`Except.error`).  The weather
section renders iff the current radio value is "Yes" and the stored
frame is not `None` (line 117). -/
def renderSummary (f : FormInputs) (s : SessionState) :
    Except String (Option SummaryOutput) :=
  if s.submitted then
    match s.lat with
    | none => .error "AttributeError: st.session_state has no attribute lat"
    | some lat =>
      match s.lon with
      | none => .error "AttributeError: st.session_state has no attribute lon"
      | some lon =>
        .ok (some
          { bannerName := f.trial_name
            startDateShown := f.trial_start_date
            endDateShown := f.trial_end_date
            latShown := lat
            lonShown := lon
            weatherSection :=
              if f.add_weather = "Yes" ∧ s.weather_data.isSome then
                s.weather_data
              else none })
  else .ok none

/-- The "Reset form" button handler (app.py lines 126-127): the single
assignment `st.session_state.submitted = False`. -/
def resetForm (s : SessionState) : SessionState :=
  { s with submitted := false }

/-- Key of the HTTP cache: the request parameters built at app.py
lines 32-37. -/
structure ReqParams where
  latitude : Rat
  longitude : Rat
  hourly : String
  timezone : String
deriving DecidableEq, Repr

/-- The parameter dict of `fetch_weather_data` for given coordinates
(app.py lines 32-37). -/
def weatherRequestParams (latitude longitude : Rat) : ReqParams :=
  { latitude := latitude
    longitude := longitude
    hourly := "temperature_2m,cloud_cover,precipitation"
    timezone := "auto" }

/-- Freshness window of the response cache, seconds: app.py line 13 passes
`expire_after=3600` to `requests_cache.CachedSession`. -/
def cacheExpireAfter : Nat := 3600

/-- State of the response cache: stored responses as
`(request parameters, response bytes, time stored)` entries. -/
abbrev CacheState : Type := List (ReqParams × List Nat × Nat)

/-- Modelled from the spec: the caching middleware itself
(`requests_cache.CachedSession`, app.py line 13) is third-party HTTP
infrastructure whose code is not in `src/`; per the spec, "responses are
cached keyed by request parameters with a fixed freshness window (1 hour)
so identical requests within that window skip the network".  An entry
stored at `t` serves a request at `now` iff `now < t + 3600`. -/
def cacheLookup (cache : CacheState) (p : ReqParams) (now : Nat) :
    Option (List Nat) :=
  match cache.find? (fun e => decide (e.1 = p) && decide (now < e.2.2 + cacheExpireAfter)) with
  | some e => some e.2.1
  | none => none

/-- Modelled from the spec: one request through the cached session.
`network` is the provider (request parameters to response bytes).  A
fresh cached entry is returned without a network call; otherwise the
network is called and the response stored at `now`.  Returns (response
bytes, new cache state, whether the network was called). -/
def cachedGet (network : ReqParams → List Nat) (cache : CacheState)
    (p : ReqParams) (now : Nat) : List Nat × CacheState × Bool :=
  match cacheLookup cache p now with
  | some body => (body, cache, false)
  | none =>
    let body := network p
    (body, (p, body, now) :: cache, true)

/-! Concrete sample collaborators and inputs, used by scenario theorems
and witnesses. -/

/-- Weather provider returning a fixed two-hour window (7200 s at 3600 s
steps) for every coordinate pair. -/
def wxpSample : Rat → Rat → HourlyResponse := fun _ _ =>
  { time := 0
    timeEnd := 7200
    interval := 3600
    temperature_2m := [10, 11]
    cloud_cover := [50, 60]
    precipitation := [0, 1] }

/-- Geocoding provider that finds no match for any query. -/
def geoAlwaysNoMatch : String → GeoOutcome := fun _ => .noMatch

/-- Geocoding provider that times out on every query. -/
def geoAlwaysTimeout : String → GeoOutcome := fun _ => .timedOut

/-- Geocoding provider resolving every query to a fixed coordinate pair. -/
def geoFixed : String → GeoOutcome := fun _ => .found 51 (-2)

/-- Sample start date. -/
def sampleStartDate : PDate := { year := 2024, month := 1, day := 1 }

/-- Sample end date. -/
def sampleEndDate : PDate := { year := 2024, month := 1, day := 10 }

/-- A fully valid submission with weather opt-in "Yes". -/
def validInputsYes : FormInputs :=
  { trial_name := "Greenhouse Test A"
    trial_start_date := sampleStartDate
    trial_end_date := sampleEndDate
    postcode := "BS1 1AA"
    add_weather := "Yes" }

/-- A fully valid submission with weather opt-in "No". -/
def validInputsNo : FormInputs :=
  { validInputsYes with add_weather := "No" }

/-- A submission with an empty trial name. -/
def missingNameInputs : FormInputs :=
  { validInputsYes with trial_name := "" }

/-- A submission with both the trial name and the postcode empty. -/
def missingBothInputs : FormInputs :=
  { validInputsYes with trial_name := "", postcode := "" }

/-- The spec's scenario input: all fields present, postcode "ZZZZZZ"
(unresolvable), weather opt-in "Yes". -/
def c1Inputs : FormInputs :=
  { validInputsYes with postcode := "ZZZZZZ" }

/-- Cache with no stored responses. -/
def emptyCache : CacheState := []

/-- Weather provider HTTP endpoint returning a fixed byte string for
every request. -/
def sampleNetwork : ReqParams → List Nat := fun _ => [72, 84, 84, 80]

/-- Whether the field checked by a given validation branch is missing
(Python-falsy) in the current inputs. -/
def fieldMissing (f : FormInputs) : ValidationError → Bool
  | .missingName => strFalsy f.trial_name
  | .missingStartDate => dateFalsy f.trial_start_date
  | .missingEndDate => dateFalsy f.trial_end_date
  | .missingPostcode => strFalsy f.postcode

/-- Position of each required field in the order the submit handler
checks them: name, start date, end date, postcode. -/
def fieldOrder : ValidationError → Nat
  | .missingName => 0
  | .missingStartDate => 1
  | .missingEndDate => 2
  | .missingPostcode => 3

/-! Claim theorems. -/

/-- Claim C2: the reset action sets only the `submitted` flag to false;
the stored coordinates and the stored weather table in session state are
left unchanged by reset. -/
theorem reset_clears_only_submitted (s : SessionState) :
    (resetForm s).submitted = false ∧
    (resetForm s).lat = s.lat ∧
    (resetForm s).lon = s.lon ∧
    (resetForm s).weather_data = s.weather_data :=
  ⟨rfl, rfl, rfl, rfl⟩

/-- Claim C6: the geocoding operation never raises: for every provider
behaviour and every postcode string it returns a value — either both
coordinates or the absent pair — and a provider timeout yields exactly
the same absent result as a non-matching postcode. -/
theorem get_coordinates_never_raises (geo : String → GeoOutcome)
    (postcode : String) :
    ((∃ lat lon, get_coordinates geo postcode = (some lat, some lon)) ∨
      get_coordinates geo postcode = (none, none)) ∧
    (geo postcode = .timedOut → get_coordinates geo postcode = (none, none)) ∧
    (geo postcode = .noMatch → get_coordinates geo postcode = (none, none)) := by
  unfold get_coordinates
  cases h : geo postcode with
  | found lat lon =>
    exact ⟨.inl ⟨lat, lon, rfl⟩, fun hc => by simp_all, fun hc => by simp_all⟩
  | noMatch => exact ⟨.inr rfl, fun _ => rfl, fun _ => rfl⟩
  | timedOut => exact ⟨.inr rfl, fun _ => rfl, fun _ => rfl⟩

/-- Witness for C6 at concrete providers: a timeout on "BS1 1AA" and a
no-match on "BS1 1AA" both produce the absent pair. -/
theorem get_coordinates_never_raises_witness :
    get_coordinates geoAlwaysTimeout "BS1 1AA" = (none, none) ∧
    get_coordinates geoAlwaysNoMatch "BS1 1AA" = (none, none) :=
  ⟨(get_coordinates_never_raises geoAlwaysTimeout "BS1 1AA").2.1 rfl,
   (get_coordinates_never_raises geoAlwaysNoMatch "BS1 1AA").2.2 rfl⟩

/-- Claim C9: the validation-error branches for a missing start date and
a missing end date are unreachable: the date widgets always produce a
date value and Python dates are always truthy, so the error shown by any
submit action is determined by the two string fields alone and is never
a date error. -/
theorem date_error_branches_unreachable (geo : String → GeoOutcome)
    (wxp : Rat → Rat → HourlyResponse) (f : FormInputs) (s : SessionState) :
    validate f =
      (if strFalsy f.trial_name then some .missingName
       else if strFalsy f.postcode then some .missingPostcode
       else none) ∧
    (submitTrialInfo geo wxp f s).errors =
      (if strFalsy f.trial_name then [.missingName]
       else if strFalsy f.postcode then [.missingPostcode]
       else []) := by
  have hv : validate f =
      (if strFalsy f.trial_name then some .missingName
       else if strFalsy f.postcode then some .missingPostcode
       else none) := by
    unfold validate dateFalsy
    simp
  refine ⟨hv, ?_⟩
  unfold submitTrialInfo
  rw [hv]
  cases hn : strFalsy f.trial_name with
  | true => simp
  | false =>
    cases hp : strFalsy f.postcode with
    | true => simp
    | false =>
      simp only [Bool.false_eq_true, if_false]
      rcases hg : get_coordinates geo f.postcode with ⟨l1, l2⟩
      by_cases hw : f.add_weather = "Yes" <;> cases l1 <;> cases l2 <;> simp [hw]

/-- Claim C3: for every submission in which at least one required field
is empty (Python-falsy), the submission is rejected — exactly one error
is shown, the session state is untouched, so `submitted` remains false —
and neither the geocoding nor the weather call is made. -/
theorem missing_field_blocks_submission (geo : String → GeoOutcome)
    (wxp : Rat → Rat → HourlyResponse) (f : FormInputs) (s : SessionState)
    (hsub : s.submitted = false)
    (hmiss : strFalsy f.trial_name = true ∨ dateFalsy f.trial_start_date = true ∨
      dateFalsy f.trial_end_date = true ∨ strFalsy f.postcode = true) :
    (submitTrialInfo geo wxp f s).state = s ∧
    (submitTrialInfo geo wxp f s).state.submitted = false ∧
    (submitTrialInfo geo wxp f s).errors.length = 1 ∧
    (submitTrialInfo geo wxp f s).geocodeCalled = false ∧
    (submitTrialInfo geo wxp f s).weatherCalled = false := by
  have hsome : ∃ e, validate f = some e := by
    unfold validate dateFalsy
    rcases hmiss with h | h | h | h
    · exact ⟨.missingName, by simp [h]⟩
    · simp [dateFalsy] at h
    · simp [dateFalsy] at h
    · cases hn : strFalsy f.trial_name
      · exact ⟨.missingPostcode, by simp [hn, h]⟩
      · exact ⟨.missingName, by simp [hn]⟩
  obtain ⟨e, he⟩ := hsome
  unfold submitTrialInfo
  rw [he]
  exact ⟨rfl, by rw [hsub], rfl, rfl, rfl⟩

/-- Witness for C3: submitting with an empty trial name from the initial
session state changes nothing, shows one error, and makes no network
call. -/
theorem missing_field_blocks_submission_witness :
    (submitTrialInfo geoFixed wxpSample missingNameInputs initState).state = initState ∧
    (submitTrialInfo geoFixed wxpSample missingNameInputs initState).state.submitted = false ∧
    (submitTrialInfo geoFixed wxpSample missingNameInputs initState).errors.length = 1 ∧
    (submitTrialInfo geoFixed wxpSample missingNameInputs initState).geocodeCalled = false ∧
    (submitTrialInfo geoFixed wxpSample missingNameInputs initState).weatherCalled = false :=
  missing_field_blocks_submission geoFixed wxpSample missingNameInputs initState
    (by decide) (.inl (by decide))

/-- Claim C1 evaluated at its failing input (code bug): a fresh session,
all four fields present, postcode "ZZZZZZ" which the provider cannot
resolve, weather opt-in "Yes".  After the submit handler the session has
`submitted = true`, no coordinates and no weather — as the claim says —
but the summary render does *not* complete: `st.session_state.lat` was
never set, so the script raises `AttributeError` instead of showing
missing-value placeholders. -/
theorem unresolvable_postcode_render_crashes :
    (submitTrialInfo geoAlwaysNoMatch wxpSample c1Inputs initState).state.submitted = true ∧
    (submitTrialInfo geoAlwaysNoMatch wxpSample c1Inputs initState).state.lat = none ∧
    (submitTrialInfo geoAlwaysNoMatch wxpSample c1Inputs initState).state.lon = none ∧
    (submitTrialInfo geoAlwaysNoMatch wxpSample c1Inputs initState).state.weather_data = none ∧
    renderSummary c1Inputs (submitTrialInfo geoAlwaysNoMatch wxpSample c1Inputs initState).state =
      .error "AttributeError: st.session_state has no attribute lat" := by
  exact ⟨rfl, rfl, rfl, rfl, rfl⟩

/-- Claim C7: for every valid submission with weather opt-in "No" the
stored weather table stays absent regardless of the geocoding outcome;
and in general a submission changes the stored weather only when the
opt-in was "Yes" and both coordinates resolved. -/
theorem weather_only_if_opted_in (geo : String → GeoOutcome)
    (wxp : Rat → Rat → HourlyResponse) (f : FormInputs) (s : SessionState) :
    (f.add_weather = "No" → s.weather_data = none →
      (submitTrialInfo geo wxp f s).state.weather_data = none) ∧
    ((submitTrialInfo geo wxp f s).state.weather_data ≠ s.weather_data →
      f.add_weather = "Yes" ∧
      ∃ lat lon, get_coordinates geo f.postcode = (some lat, some lon)) := by
  unfold submitTrialInfo
  cases hv : validate f with
  | some e => exact ⟨fun _ hw => by simpa using hw, fun hne => absurd rfl hne⟩
  | none =>
    rcases hg : get_coordinates geo f.postcode with ⟨l1, l2⟩
    cases l1 with
    | none =>
      exact ⟨fun _ hw => by simpa using hw, fun hne => absurd rfl hne⟩
    | some lat =>
      cases l2 with
      | none =>
        exact ⟨fun _ hw => by simpa using hw, fun hne => absurd rfl hne⟩
      | some lon =>
        by_cases hw : f.add_weather = "Yes"
        · refine ⟨fun hno _ => ?_, fun _ => ⟨hw, lat, lon, rfl⟩⟩
          rw [hno] at hw
          exact absurd hw (by decide)
        · simp only [hw, if_false]
          exact ⟨fun _ h => by simpa using h, fun hne => absurd rfl hne⟩

/-- Witness for C7: a valid opt-in "No" submission with successful
geocoding leaves the weather table absent; and an opt-in "Yes"
submission that did populate the table indeed had opt-in "Yes" and
resolved coordinates. -/
theorem weather_only_if_opted_in_witness :
    (submitTrialInfo geoFixed wxpSample validInputsNo initState).state.weather_data = none ∧
    (validInputsYes.add_weather = "Yes" ∧
      ∃ lat lon, get_coordinates geoFixed validInputsYes.postcode = (some lat, some lon)) :=
  ⟨(weather_only_if_opted_in geoFixed wxpSample validInputsNo initState).1 rfl rfl,
   (weather_only_if_opted_in geoFixed wxpSample validInputsYes initState).2 (by decide)⟩

/-- Claim C10: the post-submit summary is rendered from the current
widget values: when the session is submitted and both coordinates are
present, the render succeeds, the banner echoes the current trial-name
and date widget values, the weather section appears iff the current
radio value is "Yes" and the stored weather table is present, and a
current radio value of "No" hides the section even when a fetched table
is stored. -/
theorem summary_renders_current_widgets (f : FormInputs) (s : SessionState)
    (lat lon : Rat) (hs : s.submitted = true) (hla : s.lat = some lat)
    (hlo : s.lon = some lon) :
    ∃ out, renderSummary f s = .ok (some out) ∧
      out.bannerName = f.trial_name ∧
      out.startDateShown = f.trial_start_date ∧
      out.endDateShown = f.trial_end_date ∧
      out.latShown = lat ∧
      out.lonShown = lon ∧
      (out.weatherSection.isSome ↔
        (f.add_weather = "Yes" ∧ s.weather_data.isSome)) ∧
      (f.add_weather = "No" → out.weatherSection = none) := by
  unfold renderSummary
  rw [hs, hla, hlo]
  refine ⟨_, rfl, rfl, rfl, rfl, rfl, rfl, ?_, ?_⟩
  · by_cases hc : f.add_weather = "Yes" ∧ s.weather_data.isSome
    · simp [hc, hc.2]
    · simp only [hc, if_false]
      simp [hc]
  · intro hno
    have : ¬ (f.add_weather = "Yes" ∧ s.weather_data.isSome) := by
      rintro ⟨hy, -⟩
      rw [hno] at hy
      exact absurd hy (by decide)
    simp [this]

/-- Witness for C10: with a stored weather table and the radio switched
to "No" after submission, the summary renders and hides the weather
section. -/
theorem summary_renders_current_widgets_witness :
    ∃ out, renderSummary validInputsNo
        { submitted := true, lat := some 51, lon := some (-2),
          weather_data := some (fetch_weather_data wxpSample 51 (-2)) } = .ok (some out) ∧
      out.bannerName = validInputsNo.trial_name ∧
      out.startDateShown = validInputsNo.trial_start_date ∧
      out.endDateShown = validInputsNo.trial_end_date ∧
      out.latShown = 51 ∧
      out.lonShown = (-2) ∧
      (out.weatherSection.isSome ↔
        (validInputsNo.add_weather = "Yes" ∧
          (some (fetch_weather_data wxpSample 51 (-2)) : Option WeatherFrame).isSome)) ∧
      (validInputsNo.add_weather = "No" → out.weatherSection = none) :=
  summary_renders_current_widgets validInputsNo
    { submitted := true, lat := some 51, lon := some (-2),
      weather_data := some (fetch_weather_data wxpSample 51 (-2)) }
    51 (-2) rfl rfl rfl

/-- Claim C5: validation checks the required fields sequentially in the
order name, start date, end date, postcode and stops at the first
missing one: whenever some field is missing, the submit handler shows
exactly one error, it is for a missing field, and that field is the
earliest missing one in the check order. -/
theorem first_missing_field_reported (geo : String → GeoOutcome)
    (wxp : Rat → Rat → HourlyResponse) (f : FormInputs) (s : SessionState)
    (e : ValidationError) (hmiss : fieldMissing f e = true) :
    ∃ e0, (submitTrialInfo geo wxp f s).errors = [e0] ∧
      fieldMissing f e0 = true ∧
      ∀ e1, fieldMissing f e1 = true → fieldOrder e0 ≤ fieldOrder e1 := by
  cases hn : strFalsy f.trial_name with
  | true =>
    refine ⟨.missingName, ?_, ?_, ?_⟩
    · unfold submitTrialInfo validate
      simp [hn]
    · simp [fieldMissing, hn]
    · intro e1 _
      cases e1 <;> simp [fieldOrder]
  | false =>
    cases hp : strFalsy f.postcode with
    | true =>
      refine ⟨.missingPostcode, ?_, ?_, ?_⟩
      · unfold submitTrialInfo validate dateFalsy
        simp [hn, hp]
      · simp [fieldMissing, hp]
      · intro e1 h1
        cases e1 <;> simp_all [fieldMissing, fieldOrder, dateFalsy, hn]
    | false =>
      exact absurd hmiss (by cases e <;> simp [fieldMissing, hn, hp, dateFalsy])

/-- Witness for C5: with both the trial name and the postcode empty,
exactly the trial-name error — the earliest in the check order — is
shown. -/
theorem first_missing_field_reported_witness :
    ∃ e0, (submitTrialInfo geoFixed wxpSample missingBothInputs initState).errors = [e0] ∧
      fieldMissing missingBothInputs e0 = true ∧
      ∀ e1, fieldMissing missingBothInputs e1 = true →
        fieldOrder e0 ≤ fieldOrder e1 :=
  first_missing_field_reported geoFixed wxpSample missingBothInputs initState
    .missingPostcode (by decide)

/-- Length of the left-inclusive date range: when the window is a whole
number of steps, the row count is exactly (stop − start) / interval. -/
theorem dateRangeLeft_length (s e i : Nat) (hpos : 0 < i)
    (hdvd : i ∣ (e - s)) : (dateRangeLeft s e i).length = (e - s) / i := by
  obtain ⟨q, hq⟩ := hdvd
  simp only [dateRangeLeft, List.length_map, List.length_range]
  have h1 : e - s + i - 1 = i * q + (i - 1) := by omega
  rw [h1, hq, Nat.mul_add_div hpos, Nat.div_eq_of_lt (by omega),
    Nat.mul_div_cancel_left _ hpos]
  omega

/-- Entry `k` of the left-inclusive date range is `start + k·interval`. -/
theorem dateRangeLeft_get (s e i k : Nat)
    (hk : k < (dateRangeLeft s e i).length) :
    (dateRangeLeft s e i).get ⟨k, hk⟩ = s + k * i := by
  simp [dateRangeLeft]

/-- Claim C4: the hourly series returned by the weather fetch has exactly
(window_end − window_start) / interval rows over the provider's window
(left-inclusive, right-exclusive), with each timestamp exactly one
interval after the previous and the timestamps strictly ascending. -/
theorem weather_series_shape (wxp : Rat → Rat → HourlyResponse)
    (latitude longitude : Rat)
    (hpos : 0 < (wxp latitude longitude).interval)
    (hdvd : (wxp latitude longitude).interval ∣
      ((wxp latitude longitude).timeEnd - (wxp latitude longitude).time)) :
    (fetch_weather_data wxp latitude longitude).dates.length =
      ((wxp latitude longitude).timeEnd - (wxp latitude longitude).time) /
        (wxp latitude longitude).interval ∧
    List.Chain' (fun a b => b = a + (wxp latitude longitude).interval)
      (fetch_weather_data wxp latitude longitude).dates ∧
    List.Pairwise (· < ·) (fetch_weather_data wxp latitude longitude).dates := by
  have hdates : (fetch_weather_data wxp latitude longitude).dates =
      dateRangeLeft (wxp latitude longitude).time
        (wxp latitude longitude).timeEnd (wxp latitude longitude).interval := rfl
  rw [hdates]
  refine ⟨dateRangeLeft_length _ _ _ hpos hdvd, ?_, ?_⟩
  · rw [List.chain'_iff_get]
    intro k hk
    rw [dateRangeLeft_get, dateRangeLeft_get, Nat.succ_mul]
    omega
  · rw [List.pairwise_iff_get]
    intro a b hab
    obtain ⟨av, ha⟩ := a
    obtain ⟨bv, hb⟩ := b
    rw [dateRangeLeft_get, dateRangeLeft_get]
    have hab' : av < bv := hab
    have h1 : (av + 1) * (wxp latitude longitude).interval ≤
        bv * (wxp latitude longitude).interval :=
      Nat.mul_le_mul (by omega) (Nat.le_refl _)
    have h2 : (av + 1) * (wxp latitude longitude).interval =
        av * (wxp latitude longitude).interval +
          (wxp latitude longitude).interval := by ring
    omega

/-- Witness for C4 at the sample provider: a 7200-second window at
3600-second steps yields exactly two strictly ascending hourly rows. -/
theorem weather_series_shape_witness :
    (fetch_weather_data wxpSample 51 (-2)).dates.length =
      ((wxpSample 51 (-2)).timeEnd - (wxpSample 51 (-2)).time) /
        (wxpSample 51 (-2)).interval ∧
    List.Chain' (fun a b => b = a + (wxpSample 51 (-2)).interval)
      (fetch_weather_data wxpSample 51 (-2)).dates ∧
    List.Pairwise (· < ·) (fetch_weather_data wxpSample 51 (-2)).dates :=
  weather_series_shape wxpSample 51 (-2) (by decide) (by decide)

/-- Claim C8 (cache middleware modelled from the spec): two identical
weather requests — same coordinates, hence the same request parameters —
where the first finds no prior entry and the second arrives within the
one-hour freshness window, return byte-identical output and the second
issues no network call. -/
theorem cached_request_idempotent (network : ReqParams → List Nat)
    (cache : CacheState) (latitude longitude : Rat) (t0 t1 : Nat)
    (hnew : ∀ e ∈ cache, e.1 ≠ weatherRequestParams latitude longitude)
    (hwin : t1 < t0 + cacheExpireAfter) :
    (cachedGet network
        (cachedGet network cache (weatherRequestParams latitude longitude) t0).2.1
        (weatherRequestParams latitude longitude) t1).1 =
      (cachedGet network cache (weatherRequestParams latitude longitude) t0).1 ∧
    (cachedGet network
        (cachedGet network cache (weatherRequestParams latitude longitude) t0).2.1
        (weatherRequestParams latitude longitude) t1).2.2 = false := by
  set p := weatherRequestParams latitude longitude with hp
  have hl0 : cacheLookup cache p t0 = none := by
    unfold cacheLookup
    rw [List.find?_eq_none.mpr]
    intro e he
    simp [hnew e he]
  have hl1 : cacheLookup ((p, network p, t0) :: cache) p t1 = some (network p) := by
    unfold cacheLookup
    rw [List.find?_cons_of_pos _ (by simp [hwin])]
  simp [cachedGet, hl0, hl1]

/-- Witness for C8: on an empty cache, the repeat of a request 100
seconds later returns the identical bytes without a network call. -/
theorem cached_request_idempotent_witness :
    (cachedGet sampleNetwork
        (cachedGet sampleNetwork emptyCache (weatherRequestParams 51 (-2)) 0).2.1
        (weatherRequestParams 51 (-2)) 100).1 =
      (cachedGet sampleNetwork emptyCache (weatherRequestParams 51 (-2)) 0).1 ∧
    (cachedGet sampleNetwork
        (cachedGet sampleNetwork emptyCache (weatherRequestParams 51 (-2)) 0).2.1
        (weatherRequestParams 51 (-2)) 100).2.2 = false :=
  cached_request_idempotent sampleNetwork emptyCache 51 (-2) 0 100
    (by intro e he; simp [emptyCache] at he) (by decide)
